import Mathlib

/-!
Verification of the LangGraph data-analysis agent (graph.py, nodes.py, state.py,
bigquery_tools.py) against its natural-language specification.

Strings are modelled as `List Char`; the Python string operations used by the
source (`strip`, `lower`, `split`, `replace`, `startswith`, `in`, `count`) are
embedded below.  The external collaborators (generation backend, query executor,
schema catalog) are modelled as oracles supplying one result per invocation, and
the LangGraph state graph is embedded as an explicit fuel-bounded run function
that also records how often the schema catalog is fetched and which SQL texts
reach the external query executor.
-/

/-- Python strings, modelled as character lists. -/
abbrev Str := List Char

/-- Character list of a Lean string literal. -/
def chars (s : String) : Str := s.data

/-- Whitespace characters recognised by Python `str.strip` / `str.split`
(ASCII subset, which covers every string this program manipulates). -/
def isWs (c : Char) : Bool :=
  c == ' ' || c == '\t' || c == '\n' || c == '\r' || c == '\x0b' || c == '\x0c'

/-- Python `str.lstrip()`. -/
def pystripLeft (s : Str) : Str := s.dropWhile isWs

/-- Python `str.rstrip()`. -/
def pystripRight (s : Str) : Str := (s.reverse.dropWhile isWs).reverse

/-- Python `str.strip()`. -/
def pystrip (s : Str) : Str := pystripRight (pystripLeft s)

/-- Python `str.lower()` (ASCII; identical to CPython on every character the
program's keywords, markers and denylist terms involve). -/
def pyLower (s : Str) : Str := s.map Char.toLower

/-- Helper for `pySplit`, with explicit fuel for structural recursion. -/
def pySplitAux : Nat → Str → List Str
  | 0, _ => []
  | _ + 1, [] => []
  | n + 1, c :: t =>
    if isWs c then pySplitAux n t
    else (c :: t.takeWhile (fun x => !isWs x)) :: pySplitAux n (t.dropWhile (fun x => !isWs x))

/-- Python `str.split()` with no separator: split on whitespace runs,
discarding empty tokens. -/
def pySplit (s : Str) : List Str := pySplitAux s.length s

/-- Helper for `pyreplace`, with explicit fuel for structural recursion. -/
def pyreplaceAux (pat rep : Str) : Nat → Str → Str
  | 0, s => s
  | _ + 1, [] => []
  | n + 1, c :: t =>
    if pat.isPrefixOf (c :: t) && !pat.isEmpty then
      rep ++ pyreplaceAux pat rep n ((c :: t).drop pat.length)
    else
      c :: pyreplaceAux pat rep n t

/-- Python `str.replace(pat, rep)`: replace every non-overlapping occurrence,
left to right. -/
def pyreplace (pat rep s : Str) : Str := pyreplaceAux pat rep s.length s

/-- Python `pat in s` (substring test). -/
def pyContains (pat : Str) : Str → Bool
  | [] => pat.isEmpty
  | c :: t => pat.isPrefixOf (c :: t) || pyContains pat t

/-- Truthiness of an optional Python string: `None` and `""` are falsy. -/
def strOptTruthy : Option Str → Bool
  | none => false
  | some s => !s.isEmpty

/-- Decimal rendering of a natural number (Python f-string interpolation of an
`int`/`len`). -/
def natChars (n : Nat) : Str := (Nat.repr n).data

/-! ## Data model (state.py) -/

/-- Result table returned by the query executor (a pandas DataFrame: named
columns and a list of rows).  `bq_client` is external, so only shape matters. -/
structure DataFrame where
  rows : List (List Str)
  cols : List Str
deriving DecidableEq, Repr

/-- Pandas `df.empty`: true when either axis has length 0. -/
def dfIsEmpty (df : DataFrame) : Bool := df.rows.isEmpty || df.cols.isEmpty

/-- Schema context: mapping from table name to its field descriptors
(field rendering is irrelevant to the claims, so a descriptor is a `Str`). -/
abbrev Schema := List (Str × List Str)

/-- Truthiness of the optional `schema_context` dict: `None` and `{}` falsy. -/
def schemaTruthy : Option Schema → Bool
  | none => false
  | some sc => !sc.isEmpty

/-- AgentState (state.py): the single workflow state record.  `messages` is the
conversation (message contents), annotated in the source with `operator.add`
merge semantics; every other field has replace semantics. -/
structure AgentState where
  messages : List Str
  user_query : Str
  analysis_type : Option Str
  sql_query : Option Str
  query_results : Option DataFrame
  insights : Option Str
  error : Option Str
  retry_count : Nat
  schema_context : Option Schema
deriving DecidableEq, Repr

/-- A partial state update returned by a node: `none` means the node's returned
dict does not mention the field.  (`user_query` is never mentioned by any
node, so it has no slot.) -/
structure Update where
  messages : Option (List Str) := none
  analysis_type : Option (Option Str) := none
  sql_query : Option (Option Str) := none
  query_results : Option (Option DataFrame) := none
  insights : Option (Option Str) := none
  error : Option (Option Str) := none
  retry_count : Option Nat := none
  schema_context : Option (Option Schema) := none
deriving DecidableEq, Repr

/-- LangGraph merge of a partial update into the state: every field the update
mentions replaces the old value, except `messages`, which concatenates
(`Annotated[List[BaseMessage], operator.add]`). -/
def applyUpdate (st : AgentState) (u : Update) : AgentState :=
  { messages := st.messages ++ u.messages.getD []
    user_query := st.user_query
    analysis_type := u.analysis_type.getD st.analysis_type
    sql_query := u.sql_query.getD st.sql_query
    query_results := u.query_results.getD st.query_results
    insights := u.insights.getD st.insights
    error := u.error.getD st.error
    retry_count := u.retry_count.getD st.retry_count
    schema_context := u.schema_context.getD st.schema_context }

/-! ## Source constants -/

/-- The backtick character (96), written via `Char.ofNat`. -/
def btick : Char := Char.ofNat 96

/-- The fence marker of three backticks. -/
def tick3 : Str := [btick, btick, btick]

/-- The language-tagged fence marker. -/
def tick3sql : Str := tick3 ++ ['s', 'q', 'l']

/-- AnalysisType.GENERAL_QUERY. -/
def general_query : Str := chars "general_query"

/-- AnalysisType.all_types(). -/
def valid_analysis_types : List Str :=
  [chars "customer_segmentation", chars "product_performance", chars "sales_trends",
   chars "geographic_patterns", general_query]

/-- Denylisted keywords of validate_sql_query (bigquery_tools.py:164). -/
def dangerous_keywords : List Str :=
  [chars "drop", chars "delete", chars "truncate", chars "insert", chars "update",
   chars "alter", chars "create"]

/-- Non-retryable error substrings of should_retry_query (nodes.py:312). -/
def non_retryable : List Str :=
  [chars "permission", chars "authentication", chars "credentials", chars "quota"]

/-- Rejection message for a dangerous keyword (bigquery_tools.py:167). -/
def dangerMsg (kw : Str) : Str :=
  chars "Query contains dangerous keyword: " ++ kw ++ chars ". Only SELECT queries are allowed."

/-- Fixed no-data insight of analyze_results_node (nodes.py:215). -/
def noDataMsg : Str :=
  chars "No data was returned from the query. The requested analysis could not be completed."

/-! ## Source functions -/

/-- validate_sql_query (bigquery_tools.py:152-177): lexical safety gate.
`find?` realises the source's first-match loop over the keyword list. -/
def validate_sql_query (s : Str) : Bool × Option Str :=
  let sql_lower := pystrip (pyLower s)
  match dangerous_keywords.find? (fun kw => (pySplit sql_lower).contains kw) with
  | some kw => (false, some (dangerMsg kw))
  | none =>
    if !(chars "select").isPrefixOf sql_lower then
      (false, some (chars "Query must be a SELECT statement."))
    else if sql_lower.count '(' != sql_lower.count ')' then
      (false, some (chars "Unbalanced parentheses in query."))
    else (true, none)

/-- The markdown-fence cleanup of generate_sql_node (nodes.py:124-127), applied
to the already-stripped generation output. -/
def stripFences (q : Str) : Str :=
  if tick3sql.isPrefixOf q then pystrip (pyreplace tick3 [] (pyreplace tick3sql [] q))
  else if tick3.isPrefixOf q then pystrip (pyreplace tick3 [] q)
  else q

/-- Lines 121-127 of nodes.py: `response.content.strip()` followed by the fence
cleanup. -/
def extractSql (content : Str) : Str := stripFences (pystrip content)

/-- analyze_request_node (nodes.py:21-64).  The oracle argument is the result of
`llm.invoke` (`.error` = raised exception message). -/
def analyze_request_node (_st : AgentState) (llm : Except Str Str) : Update :=
  match llm with
  | .ok content =>
    let analysis_type := pyLower (pystrip content)
    let analysis_type :=
      if valid_analysis_types.contains analysis_type then analysis_type else general_query
    { analysis_type := some (some analysis_type), error := some none }
  | .error e =>
    { analysis_type := some (some general_query),
      error := some (some (chars "Intent analysis error: " ++ e)) }

/-- Body of generate_sql_node after the schema context is available
(nodes.py:95-151).  Prompt construction (normal vs recovery mode,
nodes.py:98-117) only chooses the text sent to the backend and is not part of
the returned update, so it is not modelled. -/
def generateSqlWithSchema (_st : AgentState) (sc : Schema) (llm : Except Str Str) : Update :=
  match llm with
  | .error e =>
    { error := some (some (chars "SQL generation error: " ++ e)), sql_query := some none }
  | .ok content =>
    let sql_query := extractSql content
    let v := validate_sql_query sql_query
    if v.1 then
      { sql_query := some (some sql_query), schema_context := some (some sc),
        error := some none }
    else
      { error := some (some (chars "Invalid SQL: " ++ v.2.getD [])),
        sql_query := some (some sql_query) }

/-- generate_sql_node (nodes.py:67-151).  `fetch` is the catalog's answer for
the one fetch this call may perform (nodes.py:82-93). -/
def generate_sql_node (st : AgentState) (fetch : Except Str Schema)
    (llm : Except Str Str) : Update :=
  if schemaTruthy st.schema_context then
    generateSqlWithSchema st (st.schema_context.getD []) llm
  else
    match fetch with
    | .error e =>
      { error := some (some (chars "Schema retrieval error: " ++ e)), sql_query := some none }
    | .ok sc => generateSqlWithSchema st sc llm

/-- execute_query_node (nodes.py:154-193).  `exec` is the external executor's
answer for the one call this node may perform. -/
def execute_query_node (st : AgentState) (exec : Except Str DataFrame) : Update :=
  if !strOptTruthy st.sql_query then
    { error := some (some (chars "No SQL query to execute")), query_results := some none }
  else
    match exec with
    | .ok df => { query_results := some (some df), error := some none, retry_count := some 0 }
    | .error e =>
      { error := some (some (chars "Query execution error: " ++ e)),
        query_results := some none,
        retry_count := some (st.retry_count + 1) }

/-- analyze_results_node (nodes.py:196-253). -/
def analyze_results_node (st : AgentState) (llm : Except Str Str) : Update :=
  if st.query_results.isNone || dfIsEmpty (st.query_results.getD ⟨[], []⟩) then
    { insights := some (some noDataMsg), error := some none }
  else
    match llm with
    | .ok content => { insights := some (some (pystrip content)), error := some none }
    | .error e =>
      let df := st.query_results.getD ⟨[], []⟩
      { insights := some (some (chars "Query executed successfully and returned " ++
          natChars df.rows.length ++ chars " rows. Columns: " ++
          List.intercalate (chars ", ") df.cols ++
          chars ". However, detailed analysis could not be generated due to an error.")),
        error := some (some (chars "Insight generation error: " ++ e)) }

/-- respond_node (nodes.py:256-292).  `state.get("insights", "")` may still be
`None`; `None` and `""` branch identically here, so insights is coalesced. -/
def respond_node (st : AgentState) : Update :=
  let insights := st.insights.getD []
  let insightsT := !insights.isEmpty
  let errorT := strOptTruthy st.error
  let err := st.error.getD []
  let response_content :=
    if errorT && !insightsT then
      chars "I apologize, but I encountered an error processing your request:\n\n" ++ err ++
        chars "\n\n" ++ chars "Please try rephrasing your question or ask something else."
    else if errorT && insightsT then
      insights ++ chars "\n\n(Note: There was a minor issue: " ++ err ++ chars ")"
    else insights
  let response_content :=
    match st.query_results with
    | some df =>
      if !dfIsEmpty df then
        response_content ++ chars "\n\n---\nData Summary: " ++ natChars df.rows.length ++
          chars " rows analyzed"
      else response_content
    | none => response_content
  { messages := some [response_content] }

/-- should_retry_query (nodes.py:295-322).  `List.any` realises the source's
first-match loop over the denylist. -/
def should_retry_query (st : AgentState) : Bool :=
  if strOptTruthy st.error ∧ st.retry_count < 2 then
    if non_retryable.any (fun t => pyContains t (pyLower (st.error.getD []))) then false
    else true
  else false

/-- Names of the three possible successors of execute_query (graph.py:53). -/
inductive Route where
  | generate_sql
  | analyze_results
  | respond
deriving DecidableEq, Repr

/-- route_after_execution (graph.py:53-82). -/
def route_after_execution (st : AgentState) : Route :=
  if strOptTruthy st.error ∧ should_retry_query st then Route.generate_sql
  else if st.query_results.isSome then Route.analyze_results
  else if strOptTruthy st.error then Route.respond
  else Route.analyze_results

/-! ## The compiled graph (create_data_analysis_graph, graph.py:17-109)

Entry analyze_request, unconditional edges analyze_request -> generate_sql ->
execute_query, the conditional edge after execute_query, analyze_results ->
respond, respond -> END.  The oracles supply, per external invocation, the
generation backend's answers, the schema catalog's answers and the query
executor's answers. -/

/-- External-collaborator answers for one run: indexed by invocation number. -/
structure Oracle where
  intentLLM : Except Str Str
  genLLM : Nat → Except Str Str
  schemaFetch : Nat → Except Str Schema
  execRes : Nat → Except Str DataFrame
  insightLLM : Except Str Str

/-- Result of running the generate_sql <-> execute_query cycle until the
conditional edge leaves it (or fuel runs out, `done = false`). -/
structure LoopResult where
  st : AgentState
  nGen : Nat
  nFetch : Nat
  nExec : Nat
  execCalls : List Str
  done : Bool
  exitRoute : Route
deriving DecidableEq, Repr

/-- The generate_sql -> execute_query -> route_after_execution cycle
(graph.py:89-100).  `nFetch` counts actual schema-catalog fetches (performed
exactly when `schema_context` is falsy on entry to generate_sql, nodes.py:84);
`execCalls` records every SQL text passed to the external executor (performed
exactly when `sql_query` is truthy on entry to execute_query, nodes.py:167). -/
def genExecLoop (o : Oracle) : Nat → AgentState → Nat → Nat → Nat → List Str → LoopResult
  | 0, st, g, f, e, calls => ⟨st, g, f, e, calls, false, Route.respond⟩
  | fuel + 1, st, g, f, e, calls =>
    let willFetch := !schemaTruthy st.schema_context
    let st1 := applyUpdate st (generate_sql_node st (o.schemaFetch f) (o.genLLM g))
    let f1 := if willFetch then f + 1 else f
    let willExec := strOptTruthy st1.sql_query
    let st2 := applyUpdate st1 (execute_query_node st1 (o.execRes e))
    let e1 := if willExec then e + 1 else e
    let calls1 := if willExec then calls ++ [st1.sql_query.getD []] else calls
    match route_after_execution st2 with
    | Route.generate_sql => genExecLoop o fuel st2 (g + 1) f1 e1 calls1
    | r => ⟨st2, g + 1, f1, e1, calls1, true, r⟩

/-- Outcome of one full graph run. -/
structure RunResult where
  final : AgentState
  fetches : Nat
  execCalls : List Str
  completed : Bool
deriving DecidableEq, Repr

/-- One full run of the compiled graph on an initial state.  `completed` is
false only when fuel runs out inside the retry cycle (the real graph would hit
LangGraph's recursion limit there). -/
def runGraph (o : Oracle) (init : AgentState) (fuel : Nat) : RunResult :=
  let st1 := applyUpdate init (analyze_request_node init o.intentLLM)
  let lr := genExecLoop o fuel st1 0 0 0 []
  if lr.done then
    let st2 :=
      match lr.exitRoute with
      | Route.analyze_results => applyUpdate lr.st (analyze_results_node lr.st o.insightLLM)
      | _ => lr.st
    let st3 := applyUpdate st2 (respond_node st2)
    ⟨st3, lr.nFetch, lr.execCalls, true⟩
  else ⟨lr.st, lr.nFetch, lr.execCalls, false⟩

/-- initial_state of run_analysis (graph.py:131-141). -/
def initState (q : Str) : AgentState :=
  { messages := [], user_query := q, analysis_type := none, sql_query := none,
    query_results := none, insights := none, error := none, retry_count := 0,
    schema_context := none }

/-- Generation output wrapped in a language-tagged fenced code block. -/
def wrapTag (s : Str) : Str := tick3sql ++ '\n' :: (s ++ '\n' :: tick3)

/-- Generation output wrapped in a bare fenced code block. -/
def wrapBare (s : Str) : Str := tick3 ++ '\n' :: (s ++ '\n' :: tick3)

/-! ## Concrete oracles for counterexamples and witnesses -/

/-- Oracle for claim C1: the generation backend returns a statement the safety
validator rejects; the executor then reports a permission error. -/
def oracleC1 : Oracle :=
  { intentLLM := Except.ok (chars "general_query")
    genLLM := fun _ => Except.ok (chars "DROP TABLE users")
    schemaFetch := fun _ => Except.ok [(chars "orders", [chars "id"])]
    execRes := fun _ => Except.error (chars "Permission denied")
    insightLLM := Except.ok (chars "done") }

/-- Oracle for claim C5: the first generation attempt fails at the backend, the
retried attempt succeeds; every catalog fetch succeeds. -/
def oracleC5 : Oracle :=
  { intentLLM := Except.ok (chars "x")
    genLLM := fun n =>
      if n = 0 then Except.error (chars "backend down") else Except.ok (chars "SELECT 1")
    schemaFetch := fun _ => Except.ok [(chars "orders", [])]
    execRes := fun _ => Except.ok ⟨[[chars "1"]], [chars "c"]⟩
    insightLLM := Except.ok (chars "insight") }

/-- Oracle for claim C8's witness: a plain success run. -/
def oracleC8 : Oracle :=
  { intentLLM := Except.ok (chars "sales_trends")
    genLLM := fun _ => Except.ok (chars "SELECT 1")
    schemaFetch := fun _ => Except.ok [(chars "orders", [])]
    execRes := fun _ => Except.ok ⟨[[chars "1"]], [chars "c"]⟩
    insightLLM := Except.ok (chars "insight") }

/-- Input for claim C6's counterexample: a SQL text containing a fence marker. -/
def c6CounterInput : Str := chars "select " ++ tick3 ++ chars " x"


/-! ## Library bridge lemmas for the string primitives -/

theorem isPrefixOf_self_append (l t : Str) : l.isPrefixOf (l ++ t) = true := by
  simp [List.isPrefixOf_iff_prefix]

theorem pyContains_iff (pat s : Str) : pyContains pat s = true ↔ pat <:+: s := by
  induction s with
  | nil => simp [pyContains, List.isEmpty_iff]
  | cons c t ih =>
    simp only [pyContains, Bool.or_eq_true, ih, List.isPrefixOf_iff_prefix]
    constructor
    · rintro (h | h)
      · exact h.isInfix
      · exact h.trans (List.suffix_cons c t).isInfix
    · rintro ⟨u, v, huv⟩
      cases u with
      | nil => exact Or.inl ⟨v, by simpa using huv⟩
      | cons x u' =>
        right
        rw [List.cons_append, List.cons_append] at huv
        exact ⟨u', v, by injection huv⟩

theorem infix_of_cons {pat s : Str} {c : Char} (h : pat <:+: s) : pat <:+: (c :: s) := by
  obtain ⟨u, v, huv⟩ := h
  exact ⟨c :: u, v, by rw [← huv]; rfl⟩

theorem not_infix_cons {pat s : Str} {c : Char}
    (h : ¬ pat <:+: s) (hp : ∀ r, c :: s ≠ pat ++ r) : ¬ pat <:+: (c :: s) := by
  rintro ⟨u, v, huv⟩
  cases u with
  | nil => exact hp v (by simpa using huv.symm)
  | cons x u' =>
    rw [List.cons_append, List.cons_append] at huv
    exact h ⟨u', v, by injection huv⟩

/-! ## pyreplace rewrite lemmas -/

theorem pyreplaceAux_fuel (pat rep : Str) :
    ∀ n m s, s.length ≤ n → s.length ≤ m →
      pyreplaceAux pat rep n s = pyreplaceAux pat rep m s := by
  intro n
  induction n with
  | zero =>
    intro m s hn _
    have hs : s = [] := List.eq_nil_of_length_eq_zero (Nat.le_zero.mp hn)
    subst hs
    cases m <;> rfl
  | succ n ih =>
    intro m s hn hm
    cases s with
    | nil => cases m <;> rfl
    | cons c t =>
      cases m with
      | zero => simp at hm
      | succ m' =>
        simp only [pyreplaceAux]
        by_cases hc : (pat.isPrefixOf (c :: t) && !pat.isEmpty) = true
        · rw [if_pos hc, if_pos hc]
          have hplen : 1 ≤ pat.length := by
            rcases pat with _ | ⟨p, ps⟩
            · simp at hc
            · simp
          have hlen : ((c :: t).drop pat.length).length ≤ n := by
            simp only [List.length_drop, List.length_cons]
            simp only [List.length_cons] at hn
            omega
          have hlen' : ((c :: t).drop pat.length).length ≤ m' := by
            simp only [List.length_drop, List.length_cons]
            simp only [List.length_cons] at hm
            omega
          rw [ih m' _ hlen hlen']
        · rw [if_neg hc, if_neg hc]
          have hlen : t.length ≤ n := by simp only [List.length_cons] at hn; omega
          have hlen' : t.length ≤ m' := by simp only [List.length_cons] at hm; omega
          rw [ih m' t hlen hlen']

theorem pyreplace_cons_neg {pat : Str} (rep : Str) {c : Char} {t : Str}
    (h : (pat.isPrefixOf (c :: t) && !pat.isEmpty) = false) :
    pyreplace pat rep (c :: t) = c :: pyreplace pat rep t := by
  show pyreplaceAux pat rep (c :: t).length (c :: t) = _
  simp only [List.length_cons, pyreplaceAux]
  rw [if_neg (by simp [h])]
  rfl

theorem pyreplace_append_left {pat : Str} (rep t : Str) (h : pat ≠ []) :
    pyreplace pat rep (pat ++ t) = rep ++ pyreplace pat rep t := by
  rcases pat with _ | ⟨p, ps⟩
  · exact absurd rfl h
  · show pyreplaceAux (p :: ps) rep ((p :: ps) ++ t).length ((p :: ps) ++ t) = _
    have hlen : ((p :: ps) ++ t).length = (ps.length + t.length) + 1 := by
      simp [List.length_append]
      try omega
    rw [hlen]
    simp only [List.cons_append, pyreplaceAux]
    rw [if_pos]
    · simp only [List.length_cons, List.append_eq, List.drop_succ_cons, List.drop_left, pyreplace]
      congr 1
      exact pyreplaceAux_fuel (p :: ps) rep (ps.length + t.length) t.length t (by omega)
        (Nat.le_refl _)
    · have : (p :: ps).isPrefixOf ((p :: ps) ++ t) = true := isPrefixOf_self_append _ _
      simp only [List.cons_append] at this
      simp [this]

theorem pyreplace_no_occurrence {pat : Str} (rep : Str) {s : Str}
    (h : ¬ pat <:+: s) : pyreplace pat rep s = s := by
  induction s with
  | nil => rfl
  | cons c t ih =>
    have hpre : pat.isPrefixOf (c :: t) = false := by
      by_contra hb
      have hb' : pat.isPrefixOf (c :: t) = true := by
        cases hx : pat.isPrefixOf (c :: t)
        · exact absurd hx hb
        · rfl
      exact h (List.isPrefixOf_iff_prefix.mp hb').isInfix
    rw [pyreplace_cons_neg rep (by simp [hpre])]
    rw [ih fun hi => h (infix_of_cons hi)]

/-! ## pystrip lemmas -/

theorem pystripLeft_cons_of_not_ws {c : Char} (s : Str) (h : isWs c = false) :
    pystripLeft (c :: s) = c :: s := by
  simp [pystripLeft, List.dropWhile_cons, h]

theorem pystripLeft_cons_of_ws {c : Char} (s : Str) (h : isWs c = true) :
    pystripLeft (c :: s) = pystripLeft s := by
  simp [pystripLeft, List.dropWhile_cons, h]

theorem pystripRight_append_of_not_ws {c : Char} (s : Str) (h : isWs c = false) :
    pystripRight (s ++ [c]) = s ++ [c] := by
  simp [pystripRight, List.reverse_append, List.dropWhile_cons, h]

theorem pystripRight_append_of_ws {c : Char} (s : Str) (h : isWs c = true) :
    pystripRight (s ++ [c]) = pystripRight s := by
  simp [pystripRight, List.reverse_append, List.dropWhile_cons, h]

theorem pystrip_cons_append {c d : Char} (mid : Str) (hc : isWs c = false)
    (hd : isWs d = false) : pystrip (c :: (mid ++ [d])) = c :: (mid ++ [d]) := by
  rw [pystrip, pystripLeft_cons_of_not_ws _ hc]
  have : c :: (mid ++ [d]) = (c :: mid) ++ [d] := rfl
  rw [this, pystripRight_append_of_not_ws _ hd]

theorem pystrip_wrap_nl (s : Str) : pystrip ('\n' :: (s ++ ['\n'])) = pystrip s := by
  rw [pystrip, pystripLeft_cons_of_ws _ (by decide)]
  rw [pystrip]
  have happ : pystripLeft (s ++ ['\n']) =
      if (pystripLeft s).isEmpty then pystripLeft ['\n'] else pystripLeft s ++ ['\n'] := by
    simp [pystripLeft, List.dropWhile_append]
  by_cases he : (pystripLeft s).isEmpty
  · rw [happ, if_pos he]
    have h1 : pystripLeft ['\n'] = ([] : Str) := by decide
    have h2 : pystripLeft s = ([] : Str) := by
      cases hx : pystripLeft s
      · rfl
      · rw [hx] at he; simp at he
    rw [h1, h2]
  · rw [happ, if_neg he, pystripRight_append_of_ws _ (by decide)]

theorem pystripRight_isPrefix (s : Str) : pystripRight s <+: s := by
  refine ⟨(s.reverse.takeWhile isWs).reverse, ?_⟩
  rw [pystripRight]
  rw [← List.reverse_append, List.takeWhile_append_dropWhile, List.reverse_reverse]

theorem pystripLeft_isSuffix (s : Str) : pystripLeft s <:+ s := List.dropWhile_suffix isWs

theorem pystrip_isInfix (s : Str) : pystrip s <:+: s := by
  obtain ⟨w, hw⟩ := pystripRight_isPrefix (pystripLeft s)
  obtain ⟨u, hu⟩ := pystripLeft_isSuffix s
  exact ⟨u, w, by rw [List.append_assoc, pystrip, hw, hu]⟩

theorem not_infix_pystrip {pat s : Str} (h : ¬ pat <:+: s) : ¬ pat <:+: pystrip s :=
  fun hc => h (hc.trans (pystrip_isInfix s))

/-! ## Character-count preservation (for the parenthesis check) -/

theorem toLower_eq_iff_of_lt65 (c a : Char) (ha : a.toNat < 65) :
    Char.toLower c = a ↔ c = a := by
  simp only [Char.toLower]
  split
  · rename_i h
    constructor
    · intro hip
      exfalso
      have h2 : (Char.ofNat (c.toNat + 32)).toNat = c.toNat + 32 := by
        have hv : (c.toNat + 32).isValidChar := Or.inl (by omega)
        rw [Char.ofNat, dif_pos hv]
        rfl
      have := congrArg Char.toNat hip
      omega
    · intro hc
      subst hc
      omega
  · simp

theorem count_pyLower_of_lt65 (a : Char) (ha : a.toNat < 65) (s : Str) :
    (pyLower s).count a = s.count a := by
  induction s with
  | nil => rfl
  | cons c t ih =>
    have hbeq : (Char.toLower c == a) = (c == a) := by
      rw [Bool.eq_iff_iff]
      simp only [beq_iff_eq]
      exact toLower_eq_iff_of_lt65 c a ha
    simp only [pyLower] at ih ⊢
    simp [List.count_cons, hbeq, ih]

theorem count_dropWhile_of_not (p : Char → Bool) (a : Char) (hpa : p a = false) :
    ∀ s : Str, (s.dropWhile p).count a = s.count a := by
  intro s
  induction s with
  | nil => rfl
  | cons c t ih =>
    by_cases hpc : p c = true
    · have hca : (c == a) = false := by
        rcases hx : (c == a) with _ | _
        · rfl
        · rw [eq_of_beq hx] at hpc; rw [hpc] at hpa; exact absurd hpa (by simp)
      rw [List.dropWhile_cons, if_pos hpc, ih, List.count_cons, hca]
      simp
    · rw [List.dropWhile_cons, if_neg hpc]

theorem count_pystrip (a : Char) (ha : isWs a = false) (s : Str) :
    (pystrip s).count a = s.count a := by
  rw [pystrip, pystripRight, pystripLeft]
  rw [List.count_reverse, count_dropWhile_of_not isWs a ha, List.count_reverse,
    count_dropWhile_of_not isWs a ha]

theorem count_sql_lower (a : Char) (ha : isWs a = false) (ha2 : a.toNat < 65) (s : Str) :
    (pystrip (pyLower s)).count a = s.count a := by
  rw [count_pystrip a ha, count_pyLower_of_lt65 a ha2]

/-! ## Fence-stripping lemmas (claim C6) -/

theorem not_tick3_infix_cons {c : Char} {s : Str} (hc : c ≠ btick)
    (h : ¬ tick3 <:+: s) : ¬ tick3 <:+: (c :: s) := by
  refine not_infix_cons h ?_
  intro r heq
  rw [tick3] at heq
  injection heq with h1 _
  exact hc h1

theorem tick3_not_prefix_mid {c : Char} (t : Str) (h : ¬ tick3 <:+: (c :: t)) :
    tick3.isPrefixOf (c :: (t ++ '\n' :: tick3)) = false := by
  rcases t with _ | ⟨d, t'⟩
  · rcases hx : tick3.isPrefixOf (c :: ([] ++ '\n' :: tick3)) with _ | _
    · rfl
    · exfalso
      rw [List.nil_append] at hx
      rw [show tick3 = [btick, btick, btick] from rfl] at hx
      simp [List.isPrefixOf] at hx
      exact absurd hx.2 (by decide)
  · rcases t' with _ | ⟨e, t''⟩
    · rcases hx : tick3.isPrefixOf (c :: ([d] ++ '\n' :: tick3)) with _ | _
      · rfl
      · exfalso
        rw [show tick3 = [btick, btick, btick] from rfl] at hx
        simp [List.isPrefixOf] at hx
        exact absurd hx.2.2 (by decide)
    · rcases hx : tick3.isPrefixOf (c :: ((d :: e :: t'') ++ '\n' :: tick3)) with _ | _
      · rfl
      · exfalso
        rw [show tick3 = [btick, btick, btick] from rfl] at hx
        simp [List.isPrefixOf] at hx
        obtain ⟨h1, h2, h3⟩ := hx
        exact h ⟨[], t'', by rw [tick3, ← h1, ← h2, ← h3]; rfl⟩

theorem replace_tick3_end {s : Str} (h : ¬ tick3 <:+: s) :
    pyreplace tick3 [] (s ++ '\n' :: tick3) = s ++ ['\n'] := by
  induction s with
  | nil => decide
  | cons c t ih =>
    have hpre : tick3.isPrefixOf (c :: (t ++ '\n' :: tick3)) = false :=
      tick3_not_prefix_mid t h
    rw [List.cons_append, pyreplace_cons_neg [] (by simp [hpre])]
    rw [ih fun hi => h (infix_of_cons hi)]
    rfl

theorem tick3sql_occ_aux :
    ∀ (s u v : Str), u ++ tick3sql ++ v = s ++ '\n' :: tick3 → tick3 <:+: s := by
  intro s
  induction s with
  | nil =>
    intro u v huv
    exfalso
    have hlen := congrArg List.length huv
    simp [tick3sql, tick3] at hlen
    omega
  | cons c t ih =>
    intro u v huv
    cases u with
    | nil =>
      rw [List.nil_append] at huv
      rw [show tick3sql = btick :: btick :: btick :: 's' :: 'q' :: 'l' :: [] from rfl] at huv
      simp only [List.cons_append, List.nil_append, List.cons.injEq] at huv
      obtain ⟨h1, huv⟩ := huv
      rcases t with _ | ⟨d, t'⟩
      · exfalso
        simp only [List.nil_append] at huv
        rw [show tick3 = [btick, btick, btick] from rfl] at huv
        injection huv with hbad _
        exact absurd hbad (by decide)
      · simp only [List.cons_append, List.cons.injEq] at huv
        obtain ⟨h2, huv⟩ := huv
        rcases t' with _ | ⟨e, t''⟩
        · exfalso
          simp only [List.nil_append] at huv
          rw [show tick3 = [btick, btick, btick] from rfl] at huv
          injection huv with hbad _
          exact absurd hbad (by decide)
        · simp only [List.cons_append, List.cons.injEq] at huv
          obtain ⟨h3, _⟩ := huv
          exact ⟨[], t'', by rw [tick3, ← h1, ← h2, ← h3]; rfl⟩
    | cons x u' =>
      simp only [List.cons_append, List.cons.injEq] at huv
      exact infix_of_cons (ih u' v huv.2)

theorem not_tick3sql_infix_tail {s : Str} (h : ¬ tick3 <:+: s) :
    ¬ tick3sql <:+: ('\n' :: (s ++ '\n' :: tick3)) := by
  rintro ⟨u, v, huv⟩
  cases u with
  | nil =>
    rw [List.nil_append] at huv
    rw [show tick3sql = btick :: btick :: btick :: 's' :: 'q' :: 'l' :: [] from rfl] at huv
    simp only [List.cons_append, List.cons.injEq] at huv
    exact absurd huv.1 (by decide)
  | cons x u' =>
    simp only [List.cons_append, List.cons.injEq] at huv
    exact h (tick3sql_occ_aux s u' v huv.2)

theorem wrapTag_decomp (s : Str) :
    wrapTag s =
      btick :: ((btick :: btick :: 's' :: 'q' :: 'l' :: '\n' :: (s ++ ['\n', btick, btick]))
        ++ [btick]) := by
  simp [wrapTag, tick3sql, tick3, List.append_assoc]

theorem wrapBare_decomp (s : Str) :
    wrapBare s = btick :: ((btick :: btick :: '\n' :: (s ++ ['\n', btick, btick])) ++ [btick]) := by
  simp [wrapBare, tick3, List.append_assoc]

theorem pystrip_wrapTag (s : Str) : pystrip (wrapTag s) = wrapTag s := by
  rw [wrapTag_decomp s, pystrip_cons_append _ (by decide) (by decide)]

theorem pystrip_wrapBare (s : Str) : pystrip (wrapBare s) = wrapBare s := by
  rw [wrapBare_decomp s, pystrip_cons_append _ (by decide) (by decide)]

theorem tick3sql_isPrefixOf_wrapTag (s : Str) : tick3sql.isPrefixOf (wrapTag s) = true := by
  rw [wrapTag]
  exact isPrefixOf_self_append _ _

theorem tick3sql_not_prefix_wrapBare (s : Str) : tick3sql.isPrefixOf (wrapBare s) = false := by
  rw [wrapBare, show tick3 = [btick, btick, btick] from rfl,
    show tick3sql = [btick, btick, btick, 's', 'q', 'l'] from rfl]
  simp [List.isPrefixOf]

theorem tick3_isPrefixOf_wrapBare (s : Str) : tick3.isPrefixOf (wrapBare s) = true := by
  rw [wrapBare]
  exact isPrefixOf_self_append _ _

theorem replace_tick3sql_wrapTag {s : Str} (h : ¬ tick3 <:+: s) :
    pyreplace tick3sql [] (wrapTag s) = '\n' :: (s ++ '\n' :: tick3) := by
  rw [wrapTag, pyreplace_append_left _ _ (by decide)]
  rw [pyreplace_no_occurrence _ (not_tick3sql_infix_tail h)]
  rfl

theorem replace_tick3_inner {s : Str} (h : ¬ tick3 <:+: s) :
    pyreplace tick3 [] ('\n' :: (s ++ '\n' :: tick3)) = '\n' :: (s ++ ['\n']) := by
  have h2 : ¬ tick3 <:+: ('\n' :: s) := not_tick3_infix_cons (by decide) h
  exact replace_tick3_end h2

theorem extractSql_unfenced {s : Str} (h : ¬ tick3 <:+: s) : extractSql s = pystrip s := by
  have h3 : ¬ tick3 <:+: pystrip s := not_infix_pystrip h
  have hp1 : tick3sql.isPrefixOf (pystrip s) = false := by
    rcases hx : tick3sql.isPrefixOf (pystrip s) with _ | _
    · rfl
    · exfalso
      have hpre := List.isPrefixOf_iff_prefix.mp hx
      have ht : tick3 <+: pystrip s := List.IsPrefix.trans ⟨['s', 'q', 'l'], rfl⟩ hpre
      exact h3 ht.isInfix
  have hp2 : tick3.isPrefixOf (pystrip s) = false := by
    rcases hx : tick3.isPrefixOf (pystrip s) with _ | _
    · rfl
    · exact absurd (List.isPrefixOf_iff_prefix.mp hx).isInfix h3
  simp only [extractSql, stripFences, hp1, hp2]
  simp

/-! ## Node update shape lemmas -/

theorem applyUpdate_messages (st : AgentState) (u : Update) :
    (applyUpdate st u).messages = st.messages ++ u.messages.getD [] := rfl

theorem applyUpdate_schema (st : AgentState) (u : Update) :
    (applyUpdate st u).schema_context = u.schema_context.getD st.schema_context := rfl

theorem generateSqlWithSchema_messages (st : AgentState) (sc : Schema) (llm : Except Str Str) :
    (generateSqlWithSchema st sc llm).messages = none := by
  rcases llm with e | content
  · rfl
  · simp only [generateSqlWithSchema]
    split <;> rfl

theorem generate_sql_node_messages (st : AgentState) (f : Except Str Schema)
    (llm : Except Str Str) : (generate_sql_node st f llm).messages = none := by
  simp only [generate_sql_node]
  split
  · exact generateSqlWithSchema_messages ..
  · rcases f with e | sc
    · rfl
    · exact generateSqlWithSchema_messages ..

theorem execute_query_node_messages (st : AgentState) (ex : Except Str DataFrame) :
    (execute_query_node st ex).messages = none := by
  simp only [execute_query_node]
  split
  · rfl
  · rcases ex with e | df <;> rfl

theorem analyze_results_node_messages (st : AgentState) (llm : Except Str Str) :
    (analyze_results_node st llm).messages = none := by
  simp only [analyze_results_node]
  split
  · rfl
  · rcases llm with e | content <;> rfl

theorem analyze_request_node_messages (st : AgentState) (llm : Except Str Str) :
    (analyze_request_node st llm).messages = none := by
  rcases llm with e | content <;> rfl

theorem execute_query_node_schema (st : AgentState) (ex : Except Str DataFrame) :
    (execute_query_node st ex).schema_context = none := by
  simp only [execute_query_node]
  split
  · rfl
  · rcases ex with e | df <;> rfl

theorem analyze_results_node_schema (st : AgentState) (llm : Except Str Str) :
    (analyze_results_node st llm).schema_context = none := by
  simp only [analyze_results_node]
  split
  · rfl
  · rcases llm with e | content <;> rfl

theorem gen_sql_preserves_schema (st : AgentState) (f : Except Str Schema)
    (llm : Except Str Str) (h : schemaTruthy st.schema_context = true) :
    (applyUpdate st (generate_sql_node st f llm)).schema_context = st.schema_context := by
  rw [applyUpdate_schema]
  simp only [generate_sql_node, h, if_pos]
  rcases llm with e | content
  · rfl
  · simp only [generateSqlWithSchema]
    split
    · rcases hsc : st.schema_context with _ | sc
      · rw [hsc] at h; simp [schemaTruthy] at h
      · simp
    · rfl

/-! ## Loop invariants -/

theorem genExecLoop_messages (o : Oracle) :
    ∀ fuel st g f e c, (genExecLoop o fuel st g f e c).st.messages = st.messages := by
  intro fuel
  induction fuel with
  | zero => intro st g f e c; rfl
  | succ n ih =>
    intro st g f e c
    simp only [genExecLoop]
    split
    · rw [ih]
      simp [applyUpdate_messages, execute_query_node_messages, generate_sql_node_messages]
    · simp [applyUpdate_messages, execute_query_node_messages, generate_sql_node_messages]

theorem genExecLoop_cached (o : Oracle) :
    ∀ fuel st g f e c, schemaTruthy st.schema_context = true →
      (genExecLoop o fuel st g f e c).nFetch = f ∧
      (genExecLoop o fuel st g f e c).st.schema_context = st.schema_context := by
  intro fuel
  induction fuel with
  | zero => intro st g f e c _; exact ⟨rfl, rfl⟩
  | succ n ih =>
    intro st g f e c h
    have hsch2 : (applyUpdate
        (applyUpdate st (generate_sql_node st (o.schemaFetch f) (o.genLLM g)))
        (execute_query_node
          (applyUpdate st (generate_sql_node st (o.schemaFetch f) (o.genLLM g)))
          (o.execRes e))).schema_context = st.schema_context := by
      rw [applyUpdate_schema, execute_query_node_schema]
      exact gen_sql_preserves_schema st _ _ h
    simp only [genExecLoop, h]
    split
    · rename_i heq
      have := ih _ (g + 1)
        (if (!true) = true then f + 1 else f)
        (if strOptTruthy
            (applyUpdate st (generate_sql_node st (o.schemaFetch f) (o.genLLM g))).sql_query
          then e + 1 else e)
        (if strOptTruthy
            (applyUpdate st (generate_sql_node st (o.schemaFetch f) (o.genLLM g))).sql_query
          then c ++ [(applyUpdate st (generate_sql_node st (o.schemaFetch f)
            (o.genLLM g))).sql_query.getD []] else c)
        (hsch2 ▸ h)
      refine ⟨?_, ?_⟩
      · rw [this.1]
        simp
      · rw [this.2, hsch2]
    · refine ⟨by simp, hsch2⟩

theorem respond_appends_one (st2 : AgentState) :
    (applyUpdate st2 (respond_node st2)).messages.length = st2.messages.length + 1 := by
  rw [applyUpdate_messages, List.length_append]
  have h1 : ((respond_node st2).messages.getD []).length = 1 := rfl
  rw [h1]

theorem runGraph_messages_aux (o : Oracle) (init : AgentState) (fuel : Nat)
    (h : (runGraph o init fuel).completed = true) :
    (runGraph o init fuel).final.messages.length = init.messages.length + 1 := by
  rcases hd : (genExecLoop o fuel (applyUpdate init (analyze_request_node init o.intentLLM))
      0 0 0 []).done with _ | _
  · exfalso
    simp only [runGraph, hd] at h
    simp at h
  · simp only [runGraph, hd, if_pos]
    have hlr : (genExecLoop o fuel (applyUpdate init (analyze_request_node init o.intentLLM))
        0 0 0 []).st.messages = init.messages := by
      rw [genExecLoop_messages, applyUpdate_messages, analyze_request_node_messages]
      simp
    split
    · rw [respond_appends_one, applyUpdate_messages, analyze_results_node_messages, hlr]
      simp
    · rw [respond_appends_one, hlr]

theorem isEmpty_false_of_ne {q : Str} (h : q ≠ []) : q.isEmpty = false := by
  rcases q with _ | ⟨c, t⟩
  · exact absurd rfl h
  · rfl

/-! ## Claims -/

/-- C1: the claim states that after a safety-validation failure in the SQL
generation step the failure is recorded as `error`, the invalid text is kept as
`sql_query`, and the external query executor is not invoked with it.  The first
two parts hold, but the third is violated by the code: the graph edge
generate_sql -> execute_query is unconditional and execute_query only
short-circuits on a falsy `sql_query`, so the non-empty rejected statement is
passed to the external executor.  This theorem exhibits a complete run in which
the validator rejects "DROP TABLE users" (with the error recorded and the text
kept, second conjunct) and the executor is nevertheless invoked with exactly
that statement (third conjunct). -/
theorem c1_validation_failure_still_executes :
    (validate_sql_query (chars "DROP TABLE users")).1 = false
    ∧ generateSqlWithSchema (initState (chars "q")) [(chars "orders", [chars "id"])]
        (Except.ok (chars "DROP TABLE users")) =
      { error := some (some (chars
          "Invalid SQL: Query contains dangerous keyword: drop. Only SELECT queries are allowed.")),
        sql_query := some (some (chars "DROP TABLE users")) }
    ∧ (runGraph oracleC1 (initState (chars "q")) 10).execCalls = [chars "DROP TABLE users"]
    ∧ (runGraph oracleC1 (initState (chars "q")) 10).completed = true := by
  decide

/-- C4: execute_query_node returns, depending on the three cases: for absent
`sql_query` an update recording the no-query error with `query_results` absent
and `retry_count` not mentioned; on executor success the results with `error`
cleared and `retry_count` reset to 0; on executor failure cleared results, the
executor's message as `error`, and `retry_count` incremented by one. -/
theorem c4_execute_query_node (st : AgentState) (exec : Except Str DataFrame) :
    (st.sql_query = none →
      execute_query_node st exec =
        { error := some (some (chars "No SQL query to execute")), query_results := some none })
    ∧ (∀ q df, st.sql_query = some q → q ≠ [] → exec = Except.ok df →
        execute_query_node st exec =
          { query_results := some (some df), error := some none, retry_count := some 0 })
    ∧ (∀ q m, st.sql_query = some q → q ≠ [] → exec = Except.error m →
        execute_query_node st exec =
          { error := some (some (chars "Query execution error: " ++ m)),
            query_results := some none,
            retry_count := some (st.retry_count + 1) }) := by
  refine ⟨?_, ?_, ?_⟩
  · intro h
    simp [execute_query_node, h, strOptTruthy]
  · intro q df hq hne hex
    subst hex
    simp [execute_query_node, hq, strOptTruthy, isEmpty_false_of_ne hne]
  · intro q m hq hne hex
    subst hex
    simp [execute_query_node, hq, strOptTruthy, isEmpty_false_of_ne hne]

/-- C4 witness: the failure case at a concrete state and executor answer. -/
theorem c4_execute_query_node_witness :
    execute_query_node
      { initState (chars "q") with sql_query := some (chars "SELECT 1"), retry_count := 1 }
      (Except.error (chars "boom")) =
      { error := some (some (chars "Query execution error: " ++ chars "boom")),
        query_results := some none,
        retry_count := some 2 } :=
  (c4_execute_query_node
    { initState (chars "q") with sql_query := some (chars "SELECT 1"), retry_count := 1 }
    (Except.error (chars "boom"))).2.2 (chars "SELECT 1") (chars "boom") rfl (by decide) rfl

/-- C9: when `query_results` is absent or has zero rows, analyze_results_node
returns the fixed no-data insight and clears `error`, independently of the
generation backend (the same update results for every backend answer, which is
the shallow rendition of the backend not being invoked). -/
theorem c9_empty_results_short_circuit (st : AgentState) (llm : Except Str Str)
    (h : st.query_results = none ∨ ∃ df, st.query_results = some df ∧ df.rows = []) :
    analyze_results_node st llm =
      { insights := some (some noDataMsg), error := some none } := by
  rcases h with h | ⟨df, h, hrows⟩
  · simp [analyze_results_node, h]
  · simp [analyze_results_node, h, dfIsEmpty, hrows]

/-- C9 witness: concrete absent-results state, concrete backend answer. -/
theorem c9_empty_results_short_circuit_witness :
    analyze_results_node (initState (chars "q")) (Except.ok (chars "ignored")) =
      { insights := some (some noDataMsg), error := some none } :=
  c9_empty_results_short_circuit (initState (chars "q")) (Except.ok (chars "ignored"))
    (Or.inl rfl)

/-- C10: when `sql_query` is present but equal to the empty string,
execute_query_node behaves exactly as in the absent case: the same no-query
error update, `query_results` absent, `retry_count` not mentioned, and the
update coincides with the one produced when `sql_query` is absent. -/
theorem c10_empty_string_query (st : AgentState) (exec : Except Str DataFrame)
    (h : st.sql_query = some []) :
    execute_query_node st exec =
      { error := some (some (chars "No SQL query to execute")), query_results := some none }
    ∧ execute_query_node st exec = execute_query_node { st with sql_query := none } exec := by
  constructor
  · simp [execute_query_node, h, strOptTruthy]
  · simp [execute_query_node, h, strOptTruthy]

/-- C10 witness: concrete state carrying the empty-string query. -/
theorem c10_empty_string_query_witness :
    execute_query_node { initState (chars "q") with sql_query := some [] }
        (Except.ok ⟨[[chars "1"]], [chars "c"]⟩) =
      { error := some (some (chars "No SQL query to execute")), query_results := some none } :=
  (c10_empty_string_query { initState (chars "q") with sql_query := some [] }
    (Except.ok ⟨[[chars "1"]], [chars "c"]⟩) rfl).1

/-- C3: the routing function evaluated after execute_query returns, in priority
order: generate_sql when an error is present (truthy) and retry is permitted;
otherwise analyze_results when `query_results` is not absent; otherwise respond
when an error is present; otherwise analyze_results as the defensive default. -/
theorem c3_route_after_execution (st : AgentState) :
    (strOptTruthy st.error = true → should_retry_query st = true →
      route_after_execution st = Route.generate_sql)
    ∧ (¬(strOptTruthy st.error = true ∧ should_retry_query st = true) →
        st.query_results.isSome = true → route_after_execution st = Route.analyze_results)
    ∧ (should_retry_query st = false → st.query_results = none →
        strOptTruthy st.error = true → route_after_execution st = Route.respond)
    ∧ (st.query_results = none → strOptTruthy st.error = false →
        route_after_execution st = Route.analyze_results) := by
  refine ⟨?_, ?_, ?_, ?_⟩
  · intro h1 h2
    simp only [route_after_execution]
    rw [if_pos ⟨h1, h2⟩]
  · intro hn hq
    simp only [route_after_execution]
    rw [if_neg hn, if_pos hq]
  · intro h0 hq he
    simp only [route_after_execution]
    rw [if_neg (by rintro ⟨-, hb⟩; rw [h0] at hb; exact absurd hb (by simp)),
      if_neg (by simp [hq]), if_pos he]
  · intro hq he
    simp only [route_after_execution]
    rw [if_neg (by rintro ⟨ha, -⟩; rw [he] at ha; exact absurd ha (by simp)),
      if_neg (by simp [hq]), if_neg (by simp [he])]

/-- C3 witness: retries exhausted with error present and no results routes to
respond. -/
theorem c3_route_after_execution_witness :
    route_after_execution
      { initState (chars "q") with
          error := some (chars "Query execution error: timeout"), retry_count := 2 } =
      Route.respond :=
  (c3_route_after_execution
    { initState (chars "q") with
        error := some (chars "Query execution error: timeout"), retry_count := 2 }).2.2.1
    (by decide) rfl (by decide)

/-- C2: should_retry_query is a pure function of `(error, retry_count)`; it
permits retry precisely when the error is present (a truthy, non-empty text),
`retry_count < 2`, and the lowercased error text contains none of the four
denylist substrings; and whenever the error text contains "permission",
"authentication", "credentials" or "quota" case-insensitively, retry is denied
regardless of `retry_count`. -/
theorem c2_retry_policy (st : AgentState) :
    (should_retry_query st = true ↔
      ∃ e, st.error = some e ∧ e ≠ [] ∧ st.retry_count < 2 ∧
        ∀ t ∈ non_retryable, ¬ t <:+: pyLower e)
    ∧ (∀ e t, st.error = some e → t ∈ non_retryable → t <:+: pyLower e →
        should_retry_query st = false)
    ∧ (∀ st' : AgentState, st.error = st'.error → st.retry_count = st'.retry_count →
        should_retry_query st = should_retry_query st') := by
  refine ⟨?_, ?_, ?_⟩
  · unfold should_retry_query
    rcases hx : st.error with _ | e
    · simp [strOptTruthy]
    · by_cases he : e = []
      · subst he
        simp [strOptTruthy]
      · by_cases hrc : st.retry_count < 2
        · rcases hany : non_retryable.any (fun t => pyContains t (pyLower e)) with _ | _
          · rw [if_pos ⟨by simp [strOptTruthy, isEmpty_false_of_ne he], hrc⟩]
            simp only [Option.getD_some, hany]
            simp only [List.any_eq_false] at hany
            constructor
            · intro _
              exact ⟨e, rfl, he, hrc, fun t ht hinf =>
                hany t ht ((pyContains_iff t (pyLower e)).mpr hinf)⟩
            · intro _
              rfl
          · rw [if_pos ⟨by simp [strOptTruthy, isEmpty_false_of_ne he], hrc⟩]
            simp only [Option.getD_some, hany]
            simp only [List.any_eq_true] at hany
            obtain ⟨t, ht, hc⟩ := hany
            constructor
            · intro hfalse
              exact absurd hfalse (by simp)
            · rintro ⟨e', he', _, _, hall⟩
              injection he' with he2
              subst he2
              exact absurd ((pyContains_iff t (pyLower e)).mp hc) (hall t ht)
        · rw [if_neg (by rintro ⟨-, h2⟩; exact hrc h2)]
          constructor
          · intro hfalse
            exact absurd hfalse (by simp)
          · rintro ⟨e', he', _, hrc', -⟩
            injection he' with he2
            subst he2
            exact absurd hrc' hrc
  · intro e t hxe hmem hinf
    unfold should_retry_query
    split
    · rw [if_pos]
      rw [hxe]
      simp only [Option.getD_some]
      exact List.any_eq_true.mpr ⟨t, hmem, (pyContains_iff t (pyLower e)).mpr hinf⟩
    · rfl
  · intro st' h1 h2
    unfold should_retry_query
    rw [h1, h2]

/-- C2 witness: an upper-case PERMISSION error is denied even at retry_count 0. -/
theorem c2_retry_policy_witness :
    should_retry_query
      { initState (chars "q") with error := some (chars "PERMISSION denied") } = false :=
  (c2_retry_policy
    { initState (chars "q") with error := some (chars "PERMISSION denied") }).2.1
    (chars "PERMISSION denied") (chars "permission") rfl (by decide) (by decide)

/-- C5 counterexample: the claim states the schema context is fetched at most
once per run.  In this complete run the first generation attempt fetches the
schema but fails at the backend, and because only the success branch of the
generation step writes `schema_context` back into the state, the retry fetches
the schema from the catalog a second time. -/
theorem c5_schema_refetched_counterexample :
    (runGraph oracleC5 (initState (chars "q")) 10).fetches = 2
    ∧ (runGraph oracleC5 (initState (chars "q")) 10).completed = true := by
  decide

/-- C5 (amended): once `schema_context` is present in the state (it is written
back exactly by a fully successful generation step), the generate/execute cycle
performs no further catalog fetch and the cached value is reused unchanged for
the remaining lifetime of the run; before it is stored, each generation attempt
fetches it again. -/
theorem c5_schema_cached_once_stored (o : Oracle) (fuel : Nat) (st : AgentState)
    (g f e : Nat) (c : List Str) (h : schemaTruthy st.schema_context = true) :
    (genExecLoop o fuel st g f e c).nFetch = f ∧
    (genExecLoop o fuel st g f e c).st.schema_context = st.schema_context :=
  genExecLoop_cached o fuel st g f e c h

/-- C5 witness: with a cached schema, three loop rounds perform no fetch. -/
theorem c5_schema_cached_once_stored_witness :
    (genExecLoop oracleC8 3
        { initState (chars "q") with schema_context := some [(chars "orders", [])] }
        0 5 0 []).nFetch = 5
    ∧ (genExecLoop oracleC8 3
        { initState (chars "q") with schema_context := some [(chars "orders", [])] }
        0 5 0 []).st.schema_context = some [(chars "orders", [])] :=
  c5_schema_cached_once_stored oracleC8 3
    { initState (chars "q") with schema_context := some [(chars "orders", [])] }
    0 5 0 [] (by decide)

/-- C6 counterexample: the claim quantifies over every SQL text, but for a text
containing the three-backtick marker the `replace`-based stripping also deletes
the inner marker, so wrapping changes the extracted text. -/
theorem c6_fence_stripping_counterexample :
    extractSql (wrapTag c6CounterInput) ≠ extractSql c6CounterInput := by
  decide

/-- C6 (amended): for every SQL text that does not itself contain the
three-backtick fence marker, the extraction applied to the text wrapped in a
fenced code block — language-tagged or bare — yields the same extracted SQL
text as applying it to the unwrapped text. -/
theorem c6_fence_stripping_amended (s : Str) (h : ¬ tick3 <:+: s) :
    extractSql (wrapTag s) = extractSql s ∧ extractSql (wrapBare s) = extractSql s := by
  have hstrip : extractSql s = pystrip s := extractSql_unfenced h
  constructor
  · have h1 : extractSql (wrapTag s) = pystrip s := by
      have hcond : tick3sql.isPrefixOf (pystrip (wrapTag s)) = true := by
        rw [pystrip_wrapTag]
        exact tick3sql_isPrefixOf_wrapTag s
      simp only [extractSql, stripFences, hcond, if_true]
      rw [pystrip_wrapTag, replace_tick3sql_wrapTag h, replace_tick3_inner h, pystrip_wrap_nl]
    rw [h1, hstrip]
  · have h1 : extractSql (wrapBare s) = pystrip s := by
      have hcond1 : tick3sql.isPrefixOf (pystrip (wrapBare s)) = false := by
        rw [pystrip_wrapBare]
        exact tick3sql_not_prefix_wrapBare s
      have hcond2 : tick3.isPrefixOf (pystrip (wrapBare s)) = true := by
        rw [pystrip_wrapBare]
        exact tick3_isPrefixOf_wrapBare s
      simp only [extractSql, stripFences, hcond1, hcond2, if_true]
      rw [pystrip_wrapBare]
      have hrepl : pyreplace tick3 [] (wrapBare s) = '\n' :: (s ++ ['\n']) := by
        rw [wrapBare, pyreplace_append_left _ _ (by decide), replace_tick3_inner h]
        rfl
      rw [hrepl, pystrip_wrap_nl]
      simp
    rw [h1, hstrip]

/-- C6 witness: a fence-free statement extracts identically wrapped or not. -/
theorem c6_fence_stripping_amended_witness :
    extractSql (wrapTag (chars "SELECT 1")) = extractSql (chars "SELECT 1")
    ∧ extractSql (wrapBare (chars "SELECT 1")) = extractSql (chars "SELECT 1") :=
  c6_fence_stripping_amended (chars "SELECT 1") (by decide)

/-- C7: validate_sql_query is total (a function to a flag and optional reason);
it rejects any statement one of whose whitespace-delimited (lowercased) tokens
equals a denylisted keyword, with a reason naming a forbidden keyword the
statement contains; it rejects any statement whose trimmed lowercased text does
not begin with "select"; it rejects any statement whose counts of the two
parenthesis characters differ; and it accepts "SELECT * FROM t". -/
theorem c7_validate_sql_query (s : Str) :
    ((∃ kw ∈ dangerous_keywords, kw ∈ pySplit (pystrip (pyLower s))) →
      (validate_sql_query s).1 = false ∧
        ∃ kw r, kw ∈ dangerous_keywords ∧ kw ∈ pySplit (pystrip (pyLower s)) ∧
          (validate_sql_query s).2 = some r ∧ kw <:+: r)
    ∧ ((chars "select").isPrefixOf (pystrip (pyLower s)) = false →
        (validate_sql_query s).1 = false)
    ∧ (s.count '(' ≠ s.count ')' → (validate_sql_query s).1 = false)
    ∧ validate_sql_query (chars "SELECT * FROM t") = (true, none) := by
  refine ⟨?_, ?_, ?_, by decide⟩
  · rintro ⟨kw, hmem, htok⟩
    rcases hf : dangerous_keywords.find?
        (fun k => (pySplit (pystrip (pyLower s))).contains k) with _ | kw'
    · exfalso
      refine List.find?_eq_none.mp hf kw hmem ?_
      exact List.elem_iff.mpr htok
    · have hp := List.find?_some hf
      have hm := List.mem_of_find?_eq_some hf
      refine ⟨by simp only [validate_sql_query]; rw [hf], kw', dangerMsg kw', hm, ?_, ?_, ?_⟩
      · exact List.elem_iff.mp hp
      · simp only [validate_sql_query]
        rw [hf]
      · exact ⟨chars "Query contains dangerous keyword: ",
          chars ". Only SELECT queries are allowed.", rfl⟩
  · intro hsel
    rcases hf : dangerous_keywords.find?
        (fun k => (pySplit (pystrip (pyLower s))).contains k) with _ | kw'
    · simp only [validate_sql_query]
      rw [hf]
      simp [hsel]
    · simp only [validate_sql_query]
      rw [hf]
  · intro hcount
    rcases hf : dangerous_keywords.find?
        (fun k => (pySplit (pystrip (pyLower s))).contains k) with _ | kw'
    · have h1 : (pystrip (pyLower s)).count '(' = s.count '(' :=
        count_sql_lower '(' (by decide) (by decide) s
      have h2 : (pystrip (pyLower s)).count ')' = s.count ')' :=
        count_sql_lower ')' (by decide) (by decide) s
      simp only [validate_sql_query]
      rw [hf]
      split_ifs with hA hB
      · rfl
      · rfl
      · exfalso
        have hB' : (pystrip (pyLower s)).count '(' = (pystrip (pyLower s)).count ')' := by
          by_contra hne
          exact hB (bne_iff_ne.mpr hne)
        rw [h1, h2] at hB'
        exact hcount hB'
    · simp only [validate_sql_query]
      rw [hf]

/-- C7 witness: a statement containing the keyword drop is rejected with a
reason naming a forbidden keyword it contains. -/
theorem c7_validate_sql_query_witness :
    (validate_sql_query (chars "DROP TABLE t")).1 = false ∧
      ∃ kw r, kw ∈ dangerous_keywords ∧
        kw ∈ pySplit (pystrip (pyLower (chars "DROP TABLE t"))) ∧
        (validate_sql_query (chars "DROP TABLE t")).2 = some r ∧ kw <:+: r :=
  (c7_validate_sql_query (chars "DROP TABLE t")).1 (by decide)

/-- C8: in every complete run the conversation grows by exactly one entry,
whatever retries occurred (first conjunct); only the respond step's update
mentions `messages`, and it appends exactly one message (remaining conjuncts),
with the merge concatenating rather than replacing (last conjunct). -/
theorem c8_conversation_growth :
    (∀ (o : Oracle) (init : AgentState) (fuel : Nat),
      (runGraph o init fuel).completed = true →
      (runGraph o init fuel).final.messages.length = init.messages.length + 1)
    ∧ (∀ st : AgentState, ∃ m, (respond_node st).messages = some [m])
    ∧ (∀ (st : AgentState) (f : Except Str Schema) (l : Except Str Str),
        (generate_sql_node st f l).messages = none)
    ∧ (∀ (st : AgentState) (ex : Except Str DataFrame),
        (execute_query_node st ex).messages = none)
    ∧ (∀ (st : AgentState) (l : Except Str Str), (analyze_results_node st l).messages = none)
    ∧ (∀ (st : AgentState) (l : Except Str Str), (analyze_request_node st l).messages = none)
    ∧ (∀ (st : AgentState) (u : Update),
        (applyUpdate st u).messages = st.messages ++ u.messages.getD []) :=
  ⟨runGraph_messages_aux, fun _ => ⟨_, rfl⟩, generate_sql_node_messages,
    execute_query_node_messages, analyze_results_node_messages,
    analyze_request_node_messages, applyUpdate_messages⟩

/-- C8 witness: a concrete complete run starting from the empty conversation
ends with exactly one message. -/
theorem c8_conversation_growth_witness :
    (runGraph oracleC8 (initState (chars "q")) 10).final.messages.length =
      (initState (chars "q")).messages.length + 1 :=
  c8_conversation_growth.1 oracleC8 (initState (chars "q")) 10 (by decide)
